import Mathlib

/-
Shallow embedding of soundkit-flac (src/lib.rs): a FLAC encoder adapter
implementing the soundkit Encoder capability interface over the opaque
libFLAC stream-encoder resource.

The opaque libFLAC resource is modelled by the configuration the adapter has
applied to it: each setting is `none` until the corresponding
FLAC__stream_encoder_set_* call is made, plus a flag recording whether
FLAC__stream_encoder_init_stream has registered the write callback.  The
behaviour of the black-box compression engine during one
FLAC__stream_encoder_process_interleaved call is an oracle: whether the call
reports success, the sequence of (byte pointer, byte count) chunks it pushes
through the registered write callback while processing, and the state
descriptor FLAC__stream_encoder_get_state would report afterwards.  Byte
pointers are modelled as functions from offsets to byte values.  A Rust
panic (the division by zero in the frame-count computation when the
configured channel count is 0) is modelled by `Option.none`.
-/

/-- FLAC__STREAM_ENCODER_INIT_STATUS_OK from libflac_sys. -/
def FLAC__STREAM_ENCODER_INIT_STATUS_OK : Nat := 0

/-- FLAC__STREAM_ENCODER_WRITE_STATUS_OK from libflac_sys. -/
def FLAC__STREAM_ENCODER_WRITE_STATUS_OK : Nat := 0

/-- The externally observable configuration of one opaque
FLAC__StreamEncoder handle: which FLAC__stream_encoder_set_* calls have been
applied since allocation (`none` if never applied), and whether
FLAC__stream_encoder_init_stream has registered the write callback. -/
structure StreamEncoderHandle where
  blocksize : Option Nat
  verify : Option Bool
  compressionLevel : Option Nat
  channelsSetting : Option Nat
  bitsPerSample : Option Nat
  sampleRate : Option Nat
  callbackRegistered : Bool
  deriving DecidableEq, Repr

/-- FLAC__stream_encoder_new: a freshly allocated handle with no settings
applied and no callback registered. -/
def FLAC__stream_encoder_new : StreamEncoderHandle :=
  { blocksize := none, verify := none, compressionLevel := none,
    channelsSetting := none, bitsPerSample := none, sampleRate := none,
    callbackRegistered := false }

/-- The FlacEncoder adapter struct from src/lib.rs.  `buffer` is the
Rc<RefCell<Vec<u8>>> output accumulator shared with the write callback;
the remaining fields store the constructor arguments. -/
structure FlacEncoder where
  encoder : StreamEncoderHandle
  sample_rate : Nat
  channels : Nat
  bits_per_sample : Nat
  buffer : List Nat
  frame_length : Nat
  compression_level : Nat
  deriving DecidableEq, Repr

/-- write_callback from src/lib.rs: reads `bytes` bytes starting at the raw
pointer `buf_ptr` (std::slice::from_raw_parts), appends them to the
client-data accumulator with extend_from_slice, and returns
FLAC__STREAM_ENCODER_WRITE_STATUS_OK.  The unused encoder, samples and
current_frame arguments of the C signature are omitted. -/
def write_callback (buf_ptr : Nat → Nat) (bytes : Nat) (client_data : List Nat) :
    List Nat × Nat :=
  let slice := (List.range bytes).map buf_ptr
  (client_data ++ slice, FLAC__STREAM_ENCODER_WRITE_STATUS_OK)

/-- Black-box behaviour of one FLAC__stream_encoder_process_interleaved
call: `ok` is whether it returns nonzero, `pushed` is the sequence of
(byte pointer, byte count) chunks it pushes through the registered write
callback while processing, and `state` is what
FLAC__stream_encoder_get_state reports afterwards. -/
structure ProcOracle where
  ok : Bool
  pushed : List ((Nat → Nat) × Nat)
  state : Nat

/-- The accumulator contents after the engine has invoked the write callback
once per chunk of `calls`, in order, starting from contents `acc`. -/
def runCallbacks : List ((Nat → Nat) × Nat) → List Nat → List Nat
  | [], acc => acc
  | p :: ps, acc => runCallbacks ps (write_callback p.1 p.2 acc).1

/-- FlacEncoder::new from src/lib.rs: allocates a fresh stream-encoder
handle with FLAC__stream_encoder_new and stores the five configuration
arguments in the adapter struct next to a new empty accumulator.  No
FLAC__stream_encoder_set_* call is made here. -/
def FlacEncoder.new (sample_rate bits_per_sample channels frame_length
    compression_level : Nat) : FlacEncoder :=
  { encoder := FLAC__stream_encoder_new
    sample_rate := sample_rate
    channels := channels
    bits_per_sample := bits_per_sample
    buffer := []
    frame_length := frame_length
    compression_level := compression_level }

/-- FlacEncoder::init from src/lib.rs: calls
FLAC__stream_encoder_init_stream with write_callback and the accumulator as
client data; `status` is the status that call reports.  A non-OK status
yields the init error message carrying the status. -/
def FlacEncoder.init (e : FlacEncoder) (status : Nat) :
    FlacEncoder × Except String Unit :=
  let e1 := { e with encoder := { e.encoder with callbackRegistered := true } }
  if status ≠ FLAC__STREAM_ENCODER_INIT_STATUS_OK then
    (e1, Except.error ("Failed to initialize FLAC encoder, state: " ++
      toString status))
  else
    (e1, Except.ok ())

/-- FlacEncoder::encode_i16 from src/lib.rs: unconditionally
Err("Not implemented."), touching neither the adapter nor the output. -/
def FlacEncoder.encode_i16 (e : FlacEncoder) (input : List Int)
    (output : List Nat) : FlacEncoder × List Nat × Except String Nat :=
  let _ := input
  (e, output, Except.error "Not implemented.")

/-- FlacEncoder::encode_i32 from src/lib.rs.  `o` is the black-box
behaviour of the FLAC__stream_encoder_process_interleaved call.  The
accumulator is cleared first; processing then appends the pushed chunks to
it through write_callback.  The frame count passed to the engine is
input.len() / self.channels cast to u32; with channels = 0 that division
panics in Rust, modelled as `none`.  On success the accumulated bytes are
copied to the front of the caller's output buffer and their count returned;
the result triple is (updated adapter, output buffer after the call,
Result). -/
def FlacEncoder.encode_i32 (e : FlacEncoder) (input : List Int)
    (output : List Nat) (o : ProcOracle) :
    Option (FlacEncoder × List Nat × Except String Nat) :=
  if e.channels = 0 then
    none
  else
    let _frames := (input.length / e.channels) % 2 ^ 32
    let buf := runCallbacks o.pushed []
    let e1 := { e with buffer := buf }
    if o.ok = false then
      some (e1, output,
        Except.error ("Failed to process samples, encoder state: " ++
          toString o.state))
    else
      let encoded_len := buf.length
      if output.length < encoded_len then
        some (e1, output,
          Except.error ("Output buffer of len " ++ toString output.length ++
            " too small for encoded data of len " ++ toString encoded_len ++
            "; input len was " ++ toString input.length))
      else
        some (e1, buf ++ output.drop encoded_len, Except.ok encoded_len)

/-- FlacEncoder::reset from src/lib.rs: finishes and deletes the old
handle, allocates a new one with FLAC__stream_encoder_new, then applies, in
source order, blocksize := frame_length, verify := true, the compression
level, channel count, bits per sample and sample rate, and calls
FLAC__stream_encoder_init_stream with write_callback and the same
accumulator.  `status` is the init status that call reports and `encState`
is what FLAC__stream_encoder_get_state reports on failure. -/
def FlacEncoder.reset (e : FlacEncoder) (status : Nat) (encState : Nat) :
    FlacEncoder × Except String Unit :=
  let h0 := FLAC__stream_encoder_new
  let h1 := { h0 with blocksize := some e.frame_length }
  let h2 := { h1 with verify := some true }
  let h3 := { h2 with compressionLevel := some e.compression_level }
  let h4 := { h3 with channelsSetting := some e.channels }
  let h5 := { h4 with bitsPerSample := some e.bits_per_sample }
  let h6 := { h5 with sampleRate := some e.sample_rate }
  let h7 := { h6 with callbackRegistered := true }
  let e1 := { e with encoder := h7 }
  if status ≠ FLAC__STREAM_ENCODER_INIT_STATUS_OK then
    (e1, Except.error ("Failed to reset encoder, encoder state: " ++
      toString encState))
  else
    (e1, Except.ok ())

/-- Folding the write callback over a chunk list concatenates the chunks, in
call order, after the accumulator's prior contents. -/
theorem runCallbacks_eq_append (calls : List ((Nat → Nat) × Nat))
    (acc : List Nat) :
    runCallbacks calls acc =
      acc ++ (calls.map (fun p => (List.range p.2).map p.1)).flatten := by
  induction calls generalizing acc with
  | nil => simp [runCallbacks]
  | cons p ps ih =>
      simp [runCallbacks, write_callback, ih]

/-- C1: if the input length is an exact multiple of the configured channel
count, the processing call reports success and the accumulated bytes fit in
the output buffer, then encode_i32 returns Ok n where n is the number of
bytes the accumulator holds, those n bytes occupy the front of the output
buffer, the buffer keeps its length, and n is at most that length. -/
theorem FlacEncoder.encode_i32_success_spec (e : FlacEncoder)
    (input : List Int) (output : List Nat) (o : ProcOracle)
    (hch : 0 < e.channels)
    ( _hmul : input.length % e.channels = 0)
    (hok : o.ok = true)
    (hfit : (runCallbacks o.pushed []).length ≤ output.length) :
    ∃ e1 out n,
      e.encode_i32 input output o = some (e1, out, Except.ok n) ∧
      n = e1.buffer.length ∧
      out.take n = e1.buffer ∧
      out.length = output.length ∧
      n ≤ output.length := by
  have hne : e.channels ≠ 0 := Nat.pos_iff_ne_zero.mp hch
  refine ⟨{ e with buffer := runCallbacks o.pushed [] },
    runCallbacks o.pushed [] ++ output.drop (runCallbacks o.pushed []).length,
    (runCallbacks o.pushed []).length, ?_, rfl, ?_, ?_, hfit⟩
  · simp [FlacEncoder.encode_i32, hne, hok, Nat.not_lt.mpr hfit]
  · exact List.take_left _ _
  · simp only [List.length_append, List.length_drop]
    omega

/-- C1 witness: a stereo adapter, four interleaved samples, one pushed chunk
of three bytes, a four-byte output buffer. -/
theorem FlacEncoder.encode_i32_success_spec_witness :
    ∃ e1 out n,
      (FlacEncoder.new 44100 16 2 0 5).encode_i32 [1, 2, 3, 4] [0, 0, 0, 0]
          ⟨true, [(fun _ => 9, 3)], 0⟩ = some (e1, out, Except.ok n) ∧
      n = e1.buffer.length ∧
      out.take n = e1.buffer ∧
      out.length = ([0, 0, 0, 0] : List Nat).length ∧
      n ≤ ([0, 0, 0, 0] : List Nat).length :=
  FlacEncoder.encode_i32_success_spec (FlacEncoder.new 44100 16 2 0 5)
    [1, 2, 3, 4] [0, 0, 0, 0] ⟨true, [(fun _ => 9, 3)], 0⟩
    (by decide) (by decide) rfl (by decide)

/-- C2: when processing succeeds but the accumulated bytes exceed the output
buffer's capacity, encode_i32 returns an error whose message carries the
output buffer length and the encoded data length, and the output buffer is
returned unmodified: no truncated output is produced. -/
theorem FlacEncoder.encode_i32_buffer_too_small (e : FlacEncoder)
    (input : List Int) (output : List Nat) (o : ProcOracle)
    (hch : 0 < e.channels) (hok : o.ok = true)
    (hsmall : output.length < (runCallbacks o.pushed []).length) :
    e.encode_i32 input output o =
      some ({ e with buffer := runCallbacks o.pushed [] }, output,
        Except.error ("Output buffer of len " ++ toString output.length ++
          " too small for encoded data of len " ++
          toString (runCallbacks o.pushed []).length ++
          "; input len was " ++ toString input.length)) := by
  have hne : e.channels ≠ 0 := Nat.pos_iff_ne_zero.mp hch
  simp [FlacEncoder.encode_i32, hne, hok, hsmall]

/-- C2 witness: a one-byte output buffer facing three accumulated bytes. -/
theorem FlacEncoder.encode_i32_buffer_too_small_witness :
    (FlacEncoder.new 44100 16 2 0 5).encode_i32 [1, 2] [0]
        ⟨true, [(fun _ => 9, 3)], 0⟩ =
      some ({ FlacEncoder.new 44100 16 2 0 5 with
                buffer := runCallbacks [(fun _ => 9, 3)] [] }, [0],
        Except.error ("Output buffer of len " ++ toString ([0] : List Nat).length ++
          " too small for encoded data of len " ++
          toString (runCallbacks [(fun _ => 9, 3)] []).length ++
          "; input len was " ++ toString ([1, 2] : List Int).length)) :=
  FlacEncoder.encode_i32_buffer_too_small (FlacEncoder.new 44100 16 2 0 5)
    [1, 2] [0] ⟨true, [(fun _ => 9, 3)], 0⟩ (by decide) rfl (by decide)

/-- C3 counterexample: with channels = 2 and an input of odd length 3,
encode_i32 raises no InvalidInput error: the call proceeds (frame count is
the truncating division 3 / 2) and returns Ok 0 when the engine pushes
nothing, so the claimed divisibility guard does not exist in the code. -/
theorem FlacEncoder.encode_i32_no_invalid_input_cex :
    (FlacEncoder.new 44100 16 2 0 5).encode_i32 [1, 2, 3] [0, 0]
        ⟨true, [], 0⟩ =
      some (FlacEncoder.new 44100 16 2 0 5, [0, 0], Except.ok 0) := by
  rfl

/-- C3 (amended): encode_i32 performs no divisibility validation: when the
input length is not a multiple of the configured channel count, the call
proceeds with the truncating division as frame count, and with a successful
processing report and sufficient output space it still returns Ok. -/
theorem FlacEncoder.encode_i32_nonmultiple_proceeds (e : FlacEncoder)
    (input : List Int) (output : List Nat) (o : ProcOracle)
    (hch : 0 < e.channels)
    ( _hmul : input.length % e.channels ≠ 0)
    (hok : o.ok = true)
    (hfit : (runCallbacks o.pushed []).length ≤ output.length) :
    ∃ e1 out n, e.encode_i32 input output o = some (e1, out, Except.ok n) := by
  have hne : e.channels ≠ 0 := Nat.pos_iff_ne_zero.mp hch
  refine ⟨{ e with buffer := runCallbacks o.pushed [] },
    runCallbacks o.pushed [] ++ output.drop (runCallbacks o.pushed []).length,
    (runCallbacks o.pushed []).length, ?_⟩
  simp [FlacEncoder.encode_i32, hne, hok, Nat.not_lt.mpr hfit]

/-- C3 amended-claim witness: odd-length input on a stereo adapter still
returns Ok. -/
theorem FlacEncoder.encode_i32_nonmultiple_proceeds_witness :
    ∃ e1 out n,
      (FlacEncoder.new 44100 16 2 0 5).encode_i32 [1, 2, 3] [0, 0, 0]
          ⟨true, [(fun _ => 4, 2)], 0⟩ = some (e1, out, Except.ok n) :=
  FlacEncoder.encode_i32_nonmultiple_proceeds (FlacEncoder.new 44100 16 2 0 5)
    [1, 2, 3] [0, 0, 0] ⟨true, [(fun _ => 4, 2)], 0⟩
    (by decide) (by decide) rfl (by decide)

/-- C4 counterexample: after new with sample rate 44100, 16 bits, 2
channels, block size 4096, compression level 5, the freshly allocated
resource has no sample rate applied and verify is not enabled,
contradicting the claim that construction applies every config field to the
resource and enables verify-while-encoding. -/
theorem FlacEncoder.new_applies_no_config_cex :
    (FlacEncoder.new 44100 16 2 4096 5).encoder.sampleRate ≠ some 44100 ∧
    (FlacEncoder.new 44100 16 2 4096 5).encoder.verify ≠ some true := by
  decide

/-- C4 (amended): new allocates a fresh encoder resource and stores all
five configuration arguments in the adapter, but applies none of them to
the resource and does not enable verify: every resource setting is still
unapplied after construction (they are applied to a new resource only by
reset). -/
theorem FlacEncoder.new_stores_but_does_not_configure
    (sr bps ch fl cl : Nat) :
    (FlacEncoder.new sr bps ch fl cl).encoder = FLAC__stream_encoder_new ∧
    (FlacEncoder.new sr bps ch fl cl).encoder.sampleRate = none ∧
    (FlacEncoder.new sr bps ch fl cl).encoder.channelsSetting = none ∧
    (FlacEncoder.new sr bps ch fl cl).encoder.bitsPerSample = none ∧
    (FlacEncoder.new sr bps ch fl cl).encoder.blocksize = none ∧
    (FlacEncoder.new sr bps ch fl cl).encoder.compressionLevel = none ∧
    (FlacEncoder.new sr bps ch fl cl).encoder.verify = none ∧
    (FlacEncoder.new sr bps ch fl cl).sample_rate = sr ∧
    (FlacEncoder.new sr bps ch fl cl).channels = ch ∧
    (FlacEncoder.new sr bps ch fl cl).bits_per_sample = bps ∧
    (FlacEncoder.new sr bps ch fl cl).frame_length = fl ∧
    (FlacEncoder.new sr bps ch fl cl).compression_level = cl ∧
    (FlacEncoder.new sr bps ch fl cl).buffer = [] :=
  ⟨rfl, rfl, rfl, rfl, rfl, rfl, rfl, rfl, rfl, rfl, rfl, rfl, rfl⟩

/-- C5: encode_i16 returns the NotImplemented error for every input and
output, leaving adapter and output untouched, hence never returns Ok. -/
theorem FlacEncoder.encode_i16_not_implemented (e : FlacEncoder)
    (input : List Int) (output : List Nat) :
    e.encode_i16 input output = (e, output, Except.error "Not implemented.") :=
  rfl

/-- C6: encode_i32 clears the accumulator before submitting samples:
whenever the call returns, the adapter's accumulator holds exactly the
concatenation of the chunks pushed during this call, whatever it held
before. -/
theorem FlacEncoder.encode_i32_clears_accumulator (e : FlacEncoder)
    (input : List Int) (output : List Nat) (o : ProcOracle)
    (hch : 0 < e.channels) :
    (e.encode_i32 input output o).map (fun r => r.1.buffer) =
      some ((o.pushed.map (fun p => (List.range p.2).map p.1)).flatten) := by
  have hne : e.channels ≠ 0 := Nat.pos_iff_ne_zero.mp hch
  have hrun : runCallbacks o.pushed [] =
      (o.pushed.map (fun p => (List.range p.2).map p.1)).flatten := by
    simpa using runCallbacks_eq_append o.pushed []
  simp only [FlacEncoder.encode_i32, if_neg hne]
  split
  · exact congrArg some hrun
  · split
    · exact congrArg some hrun
    · exact congrArg some hrun

/-- C6 witness: an adapter whose accumulator still holds stale bytes from a
previous call ends the next encode call holding only that call's chunks. -/
theorem FlacEncoder.encode_i32_clears_accumulator_witness :
    (({ FlacEncoder.new 44100 16 2 0 5 with
          buffer := [7, 7, 7] }).encode_i32 [1, 2] [0, 0, 0, 0]
        ⟨true, [(fun _ => 9, 2)], 0⟩).map
      (fun r : FlacEncoder × List Nat × Except String Nat => r.1.buffer) =
      some ((([(fun _ => 9, 2)] :
          List ((Nat → Nat) × Nat)).map
            (fun p => (List.range p.2).map p.1)).flatten) :=
  FlacEncoder.encode_i32_clears_accumulator
    { FlacEncoder.new 44100 16 2 0 5 with buffer := [7, 7, 7] }
    [1, 2] [0, 0, 0, 0] ⟨true, [(fun _ => 9, 2)], 0⟩ (by decide)

/-- C7: when the resource reports processing failure, encode_i32 returns an
error whose message carries the resource's state descriptor, and the
caller's output buffer is returned unmodified: no bytes are copied into
it. -/
theorem FlacEncoder.encode_i32_process_failure (e : FlacEncoder)
    (input : List Int) (output : List Nat) (o : ProcOracle)
    (hch : 0 < e.channels) (hfail : o.ok = false) :
    e.encode_i32 input output o =
      some ({ e with buffer := runCallbacks o.pushed [] }, output,
        Except.error ("Failed to process samples, encoder state: " ++
          toString o.state)) := by
  have hne : e.channels ≠ 0 := Nat.pos_iff_ne_zero.mp hch
  simp [FlacEncoder.encode_i32, hne, hfail]

/-- C7 witness: a failing processing call with state descriptor 3 reports
that state and leaves the output buffer [5, 6] untouched. -/
theorem FlacEncoder.encode_i32_process_failure_witness :
    (FlacEncoder.new 44100 16 2 0 5).encode_i32 [1, 2] [5, 6]
        ⟨false, [(fun _ => 9, 1)], 3⟩ =
      some ({ FlacEncoder.new 44100 16 2 0 5 with
                buffer := runCallbacks [(fun _ => 9, 1)] [] }, [5, 6],
        Except.error ("Failed to process samples, encoder state: " ++
          toString 3)) :=
  FlacEncoder.encode_i32_process_failure (FlacEncoder.new 44100 16 2 0 5)
    [1, 2] [5, 6] ⟨false, [(fun _ => 9, 1)], 3⟩ (by decide) rfl

/-- C8: each write-callback invocation appends its bytes verbatim to the
accumulator and reports WRITE_STATUS_OK to the resource, and a sequence of
invocations concatenates the chunks, in call order, after the prior
contents. -/
theorem write_callback_verbatim (calls : List ((Nat → Nat) × Nat))
    (acc : List Nat) :
    runCallbacks calls acc =
      acc ++ (calls.map (fun p => (List.range p.2).map p.1)).flatten ∧
    ∀ p : (Nat → Nat) × Nat, ∀ b : List Nat,
      (write_callback p.1 p.2 b).1 = b ++ (List.range p.2).map p.1 ∧
      (write_callback p.1 p.2 b).2 = FLAC__STREAM_ENCODER_WRITE_STATUS_OK :=
  ⟨runCallbacks_eq_append calls acc, fun _ _ => ⟨rfl, rfl⟩⟩

/-- C9 counterexample: reset of an adapter constructed with block size 7
does re-apply the block-size hint to the new resource (the setting is
applied, not left at none), contradicting the claim that the hint from
construction is not re-applied. -/
theorem FlacEncoder.reset_blocksize_cex :
    ¬ (((FlacEncoder.new 44100 24 2 7 5).reset 0 0).1.encoder.blocksize
        = none) := by
  decide

/-- C9 (amended): reset builds a fresh resource and re-applies all of the
original configuration: the block-size hint (frame_length), verify enabled,
compression level, channel count, bits per sample and sample rate; it
re-registers the write callback with the same accumulator, and returns an
error carrying the resource state descriptor exactly when
re-initialization reports a non-OK status. -/
theorem FlacEncoder.reset_reapplies_full_config (e : FlacEncoder)
    (status encState : Nat) :
    ((e.reset status encState).1.encoder.blocksize = some e.frame_length) ∧
    ((e.reset status encState).1.encoder.verify = some true) ∧
    ((e.reset status encState).1.encoder.compressionLevel
      = some e.compression_level) ∧
    ((e.reset status encState).1.encoder.channelsSetting = some e.channels) ∧
    ((e.reset status encState).1.encoder.bitsPerSample
      = some e.bits_per_sample) ∧
    ((e.reset status encState).1.encoder.sampleRate = some e.sample_rate) ∧
    ((e.reset status encState).1.encoder.callbackRegistered = true) ∧
    ((e.reset status encState).1.buffer = e.buffer) ∧
    (status ≠ FLAC__STREAM_ENCODER_INIT_STATUS_OK →
      (e.reset status encState).2 =
        Except.error ("Failed to reset encoder, encoder state: " ++
          toString encState)) ∧
    (status = FLAC__STREAM_ENCODER_INIT_STATUS_OK →
      (e.reset status encState).2 = Except.ok ()) := by
  by_cases h : status = FLAC__STREAM_ENCODER_INIT_STATUS_OK <;>
    simp [FlacEncoder.reset, h]

/-- C9 amended-claim witness: after a reset reporting init status 1 and
encoder state 9, all settings are re-applied (block size 7 among them) and
the reset error carries state 9. -/
theorem FlacEncoder.reset_reapplies_full_config_witness :
    ((FlacEncoder.new 8000 24 2 7 3).reset 1 9).1.encoder.blocksize
      = some 7 ∧
    ((FlacEncoder.new 8000 24 2 7 3).reset 1 9).2 =
      Except.error ("Failed to reset encoder, encoder state: " ++
        toString 9) :=
  ⟨(FlacEncoder.reset_reapplies_full_config
      (FlacEncoder.new 8000 24 2 7 3) 1 9).1,
   (FlacEncoder.reset_reapplies_full_config
      (FlacEncoder.new 8000 24 2 7 3) 1 9).2.2.2.2.2.2.2.2.1 (by decide)⟩

/-- C10: the frame-count division input.len() / channels makes encode_i32
return normally for every positive configured channel count (the
division-by-zero panic is unreachable), while an adapter whose channel
count is 0 panics (modelled as none) on every encode_i32 call. -/
theorem FlacEncoder.encode_i32_div_by_zero (e : FlacEncoder)
    (input : List Int) (output : List Nat) (o : ProcOracle) :
    (0 < e.channels → (e.encode_i32 input output o).isSome = true) ∧
    (e.channels = 0 → e.encode_i32 input output o = none) := by
  constructor
  · intro hch
    have hne : e.channels ≠ 0 := Nat.pos_iff_ne_zero.mp hch
    simp only [FlacEncoder.encode_i32, if_neg hne]
    split
    · rfl
    · split
      · rfl
      · rfl
  · intro h
    simp [FlacEncoder.encode_i32, h]

/-- C10 witness: a 2-channel adapter's encode call returns, a 0-channel
adapter's encode call is the modelled panic. -/
theorem FlacEncoder.encode_i32_div_by_zero_witness :
    ((FlacEncoder.new 44100 16 2 0 5).encode_i32 [1, 2] [0]
        ⟨true, [], 0⟩).isSome = true ∧
    (FlacEncoder.new 44100 16 0 0 5).encode_i32 [1, 2] [0]
        ⟨true, [], 0⟩ = none :=
  ⟨(FlacEncoder.encode_i32_div_by_zero (FlacEncoder.new 44100 16 2 0 5)
      [1, 2] [0] ⟨true, [], 0⟩).1 (by decide),
   (FlacEncoder.encode_i32_div_by_zero (FlacEncoder.new 44100 16 0 0 5)
      [1, 2] [0] ⟨true, [], 0⟩).2 rfl⟩
